import Mathlib

/-!
The provisioning pipeline of `jx create cluster aws`.

A shallow embedding of `pkg/jx/cmd/create_cluster_aws.go`.

The Go method `Run` talks to its surroundings only through a handful of
capabilities (tool lookup, dependency installer, interactive prompt,
environment lookup, subprocess runner, retry helper, platform installer).
Each capability is a field of `World`.  In one execution of `Run` every
capability is called at most once per distinct argument list, so a `World`
whose answers are functions of the arguments describes every possible
execution.  `Run` returns its outcome together with the ordered log of the
capability calls it made.
-/

set_option linter.unusedVariables false

namespace CreateClusterAWS

/-! ## Values supplied by the Go runtime and by the rest of the package -/

/-- A Go `error` value, identified by the text its `Error()` method returns.
`nil` is `none` of `Option GoError`. -/
structure GoError where
  Error : String
deriving DecidableEq, Repr

/-- Go `fmt.Errorf` applied to an already formatted message. -/
def fmt.Errorf (msg : String) : GoError := ⟨msg⟩

/-- Go standard library: `time.Duration` counts nanoseconds and
`time.Second` is `1000 * 1000 * 1000` of them. -/
def time.Second : Nat := 1000000000

/-- Modelled from the spec: the provider identifier constants `AKS` and `AWS`
named by this file are declared elsewhere in package `cmd`; the spec (4.5)
calls the identifier of this variant "AWS".  They are kept as two distinct
symbolic identifiers. -/
inductive ProviderId where
  | AKS
  | AWS
deriving DecidableEq, Repr

/-- Modelled from the spec: `CreateClusterOptions` and its constructor
`createCreateClusterOptions` are declared elsewhere in package `cmd`; only the
provider identifier handed to the constructor is kept. -/
structure CreateClusterOptions where
  Provider : ProviderId
deriving DecidableEq, Repr

/-- Modelled from the spec: `createCreateClusterOptions(f, out, errOut, provider)`
is declared elsewhere in package `cmd`; it records the provider it is given. -/
def createCreateClusterOptions (provider : ProviderId) : CreateClusterOptions :=
  ⟨provider⟩

/-- The `survey.Input` prompt description. -/
structure Input where
  Message : String
  Default : String
  Help : String
deriving DecidableEq, Repr

/-- Third argument of `survey.AskOne`: `nil` or `survey.Required`. -/
inductive Validator where
  | none
  | Required
deriving DecidableEq, Repr

/-! ## The data of the source file -/

/-- Source line 16–19. -/
def optionZones : String := "zones"

/-- Source line 27–32: `CreateClusterAWSFlags`. -/
structure CreateClusterAWSFlags where
  NodeCount : String
  KubeVersion : String
  Zones : String
  UseRBAC : Bool
deriving DecidableEq, Repr

/-- Source line 21–25: `CreateClusterAWSOptions` embeds `CreateClusterOptions`. -/
structure CreateClusterAWSOptions extends CreateClusterOptions where
  Flags : CreateClusterAWSFlags
deriving DecidableEq, Repr

/-! ## Capabilities and the call log -/

/-- One call `Run` makes to its surroundings. -/
inductive Event where
  | binaryShouldBeInstalled (name : String)
  | installMissingDependencies (deps : List String)
  | logErrorf (msg : String)
  | osExit (code : Int)
  | askOne (prompt : Input) (validator : Validator)
  | getenv (key : String)
  | warnf (msg : String)
  | runCommand (name : String) (args : List String)
  | sleep (d : Nat)
  | retry (attempts : Nat) (sleep : Nat) (call : String × List String)
  | initAndInstall (provider : ProviderId)
deriving DecidableEq, Repr

/-- The answers of the surroundings.

* `binaryShouldBeInstalled name` is the tool lookup: the empty string when the
  tool is present, otherwise the name to install.
* `installMissingDependencies deps` is the dependency installer.
* `AskOne prompt validator` is `survey.AskOne`: `.ok a` stores the answer `a`
  in the target variable and returns `nil`; `.error e` leaves the target
  untouched and returns `e`.
* `Getenv key` is `os.Getenv`.
* `runCommand name args` is the subprocess runner.
* `retry attempts sleep call` is the retry helper of the package, declared
  outside this file; the closure it receives only runs one command line, so the
  closure is represented by that command line.
* `initAndInstall provider` is the platform-install workflow. -/
structure World where
  binaryShouldBeInstalled : String → String
  installMissingDependencies : List String → Option GoError
  AskOne : Input → Validator → Except GoError String
  Getenv : String → String
  runCommand : String → List String → Option GoError
  retry : Nat → Nat → String × List String → Option GoError
  initAndInstall : ProviderId → Option GoError

/-- How an execution of `Run` ends: it returns an error value (possibly `nil`)
or the process is terminated by `os.Exit`. -/
inductive Outcome where
  | returned (err : Option GoError)
  | exited (code : Int)
deriving DecidableEq, Repr

/-- Outcome of `Run` and the ordered log of capability calls. -/
structure RunResult where
  outcome : Outcome
  trace : List Event
deriving DecidableEq, Repr

/-! ## The functions of the source file -/

/-- Source line 54–78: `NewCmdCreateClusterAWS`.  The options value the command
is built around: the embedded cluster options and the registered flag
defaults. -/
def NewCmdCreateClusterAWS : CreateClusterAWSOptions :=
  { toCreateClusterOptions := createCreateClusterOptions ProviderId.AKS
    Flags := { UseRBAC := true, NodeCount := "", KubeVersion := "", Zones := "" } }

/-- Source line 170–175: `waitForClusterToComeUp`. -/
def waitForClusterToComeUp (w : World) : Option GoError × List Event :=
  let f : String × List String := ("kubectl", ["get", "node"])
  (w.retry 200 (time.Second + 20) f, [Event.retry 200 (time.Second + 20) f])

/-- Source line 82–87 of `Run`: look up `kops`, collect it when missing, call
the installer with the collected list. -/
def Run.checkDependencies (w : World) : Option GoError × List Event :=
  let deps : List String := []
  let d := w.binaryShouldBeInstalled "kops"
  let deps := if d ≠ "" then deps ++ [d] else deps
  let err := w.installMissingDependencies deps
  (err, [Event.binaryShouldBeInstalled "kops", Event.installMissingDependencies deps])

/-- Source line 97–101 of `Run`: the node-count prompt. -/
def Run.nodesPrompt : Input :=
  { Message := "nodes", Default := "3", Help := "number of nodes" }

/-- Source line 95–103 of `Run`: the local variable `nodeCount`.  The value
returned by `survey.AskOne` is dropped. -/
def Run.resolveNodeCount (w : World) (flags : CreateClusterAWSFlags) :
    String × List Event :=
  let nodeCount := flags.NodeCount
  if nodeCount = "" then
    let prompt := Run.nodesPrompt
    match w.AskOne prompt Validator.none with
    | .ok answer => (answer, [Event.askOne prompt Validator.none])
    | .error _ => (nodeCount, [Event.askOne prompt Validator.none])
  else
    (nodeCount, [])

/-- Source line 123–127 of `Run`: the availability-zones prompt. -/
def Run.zonesPrompt : Input :=
  { Message := "Availability zones", Default := "",
    Help := "The AWS Availability Zones to use for the Kubernetes cluster" }

/-- Source line 117–136 of `Run`: the local variable `zones`, or the error with
which `Run` returns. -/
def Run.resolveZones (w : World) (flags : CreateClusterAWSFlags) :
    Except GoError String × List Event :=
  let zones := flags.Zones
  let step : Except GoError String × List Event :=
    if zones = "" then
      let zones := w.Getenv "AWS_AVAILABILITY_ZONES"
      if zones = "" then
        let warning := Event.warnf
          ("No AWS_AVAILABILITY_ZONES environment variable is defined or "
            ++ optionZones ++ " option!\n")
        let prompt := Run.zonesPrompt
        match w.AskOne prompt Validator.Required with
        | .error err =>
          (.error err, [Event.getenv "AWS_AVAILABILITY_ZONES", warning,
            Event.askOne prompt Validator.Required])
        | .ok answer =>
          (.ok answer, [Event.getenv "AWS_AVAILABILITY_ZONES", warning,
            Event.askOne prompt Validator.Required])
      else
        (.ok zones, [Event.getenv "AWS_AVAILABILITY_ZONES"])
    else
      (.ok zones, [])
  match step with
  | (.error err, log) => (.error err, log)
  | (.ok zones, log) =>
    if zones = "" then
      (.error (fmt.Errorf "No Availility zones provided!"), log)
    else
      (.ok zones, log)

/-- Source line 140–151 of `Run`: the argument vector for `kops`. -/
def Run.buildArgs (flags : CreateClusterAWSFlags) (zones : String) : List String :=
  let args : List String := []
  let args := if flags.NodeCount ≠ "" then args ++ ["--node-count", flags.NodeCount] else args
  let args :=
    if flags.KubeVersion ≠ "" then args ++ ["--kubernetes-version", flags.KubeVersion] else args
  let auth := "RBAC"
  let auth := if !flags.UseRBAC then "AlwaysAllow" else auth
  args ++ ["--authorization", auth, "--zones", zones, "--yes"]

/-- Source line 81–168: `Run`. -/
def Run (w : World) (o : CreateClusterAWSOptions) : RunResult :=
  match Run.checkDependencies w with
  | (some err, t0) =>
    ⟨Outcome.exited (-1),
      t0 ++ [Event.logErrorf
              (err.Error ++ "\nPlease fix the error or install manually then try again"),
             Event.osExit (-1)]⟩
  | (none, t0) =>
    let flags := o.Flags
    match Run.resolveNodeCount w flags with
    | (nodeCount, t1) =>
      match Run.resolveZones w flags with
      | (.error err, t2) => ⟨Outcome.returned (some err), t0 ++ t1 ++ t2⟩
      | (.ok zones, t2) =>
        let args := Run.buildArgs flags zones
        let t3 := t0 ++ t1 ++ t2 ++ [Event.runCommand "kops" args]
        match w.runCommand "kops" args with
        | some err => ⟨Outcome.returned (some err), t3⟩
        | none =>
          let t4 := t3 ++ [Event.sleep (30 * time.Second)]
          match waitForClusterToComeUp w with
          | (some err, t5) =>
            ⟨Outcome.returned (some (fmt.Errorf
                ("Failed to wait for Kubernetes cluster to start: " ++ err.Error ++ "\n"))),
              t4 ++ t5⟩
          | (none, t5) =>
            ⟨Outcome.returned (w.initAndInstall ProviderId.AWS),
              t4 ++ t5 ++ [Event.initAndInstall ProviderId.AWS]⟩

/-! ## Reading the call log -/

/-- The event is a call of the dependency installer. -/
def Event.isInstall : Event → Bool
  | .installMissingDependencies _ => true
  | _ => false

/-- The event is an interactive prompt. -/
def Event.isPrompt : Event → Bool
  | .askOne _ _ => true
  | _ => false

/-- The event is an environment lookup. -/
def Event.isGetenv : Event → Bool
  | .getenv _ => true
  | _ => false

/-- The event is a subprocess invocation. -/
def Event.isRunCommand : Event → Bool
  | .runCommand _ _ => true
  | _ => false

/-- The event is a delay. -/
def Event.isSleep : Event → Bool
  | .sleep _ => true
  | _ => false

/-- The event is a call of the readiness poller. -/
def Event.isRetry : Event → Bool
  | .retry _ _ _ => true
  | _ => false

/-- The event is the platform-install handoff. -/
def Event.isInitAndInstall : Event → Bool
  | .initAndInstall _ => true
  | _ => false

/-- Worst-case wait of a polling call: attempts times interval, in
nanoseconds; zero for every other event. -/
def Event.worstCaseWait : Event → Nat
  | .retry attempts interval _ => attempts * interval
  | _ => 0

/-- Interval of a polling call, in nanoseconds; zero for every other event. -/
def Event.pollInterval : Event → Nat
  | .retry _ interval _ => interval
  | _ => 0

/-- Attempt bound of a polling call; zero for every other event. -/
def Event.pollAttempts : Event → Nat
  | .retry attempts _ _ => attempts
  | _ => 0

/-! ## Sample worlds -/

/-- Everything succeeds: `kops` is present, the node prompt answers "5", the
environment names no zones, the zones prompt answers "eu-west-1a". -/
def happyWorld : World :=
  { binaryShouldBeInstalled := fun _ => ""
    installMissingDependencies := fun _ => none
    AskOne := fun p _ => if p.Message = "nodes" then .ok "5" else .ok "eu-west-1a"
    Getenv := fun _ => ""
    runCommand := fun _ _ => none
    retry := fun _ _ _ => none
    initAndInstall := fun _ => none }

/-- Flags as registered by default. -/
def defaultFlags : CreateClusterAWSFlags :=
  { NodeCount := "", KubeVersion := "", Zones := "", UseRBAC := true }

/-- Options with the given flags. -/
def optionsWith (flags : CreateClusterAWSFlags) : CreateClusterAWSOptions :=
  { toCreateClusterOptions := createCreateClusterOptions ProviderId.AKS, Flags := flags }

/-- A world given by the answer of every capability: the tool lookup, the
installer, the node-count prompt, the zones prompt, the environment, `kops`,
the readiness poller and the platform installer. -/
def sampleWorld (missing : String) (install : Option GoError)
    (nodes zones : Except GoError String) (env : String)
    (kops poll handoff : Option GoError) : World :=
  { binaryShouldBeInstalled := fun _ => missing
    installMissingDependencies := fun _ => install
    AskOne := fun p _ => if p.Message = "nodes" then nodes else zones
    Getenv := fun _ => env
    runCommand := fun _ _ => kops
    retry := fun _ _ _ => poll
    initAndInstall := fun _ => handoff }

/-- The environment names `us-west-2a`; the zones prompt would fail. -/
def envWorld : World :=
  sampleWorld "" none (.ok "5") (.error ⟨"no terminal"⟩) "us-west-2a" none none none

/-- Flags naming the zone `us-east-1a` only. -/
def zoneFlags : CreateClusterAWSFlags :=
  { NodeCount := "", KubeVersion := "", Zones := "us-east-1a", UseRBAC := true }

/-- Nothing names the zones and every prompt fails with `interrupt`. -/
def promptFailWorld : World :=
  sampleWorld "" none (.error ⟨"interrupt"⟩) (.error ⟨"interrupt"⟩) "" none none none

/-- Nothing names the zones and the zones prompt answers the empty string. -/
def emptyAnswerWorld : World :=
  sampleWorld "" none (.ok "5") (.ok "") "" none none none

/-- Readiness polling gives up with the error `timeout`. -/
def pollFailWorld : World :=
  sampleWorld "" none (.ok "5") (.ok "eu-west-1a") "" none (some ⟨"timeout"⟩) none

/-- The `kops` invocation fails with `exit status 1`. -/
def kopsFailWorld : World :=
  sampleWorld "" none (.ok "5") (.ok "eu-west-1a") "" (some ⟨"exit status 1"⟩) none none

/-- The platform installer fails with `helm failed`. -/
def handoffFailWorld : World :=
  sampleWorld "" none (.ok "5") (.ok "eu-west-1a") "" none none (some ⟨"helm failed"⟩)

/-- The tool `kops` is missing and installing it fails. -/
def depsFailWorld : World :=
  sampleWorld "kops" (some ⟨"download failed"⟩) (.ok "5") (.ok "eu-west-1a") "" none none none

/-- Flags of the end-to-end scenario: three nodes, two zones, RBAC on. -/
def scenarioFlags : CreateClusterAWSFlags :=
  { NodeCount := "3", KubeVersion := "", Zones := "us-east-1a,us-east-1b", UseRBAC := true }

/-! ## How `Run` unfolds, stage by stage -/

theorem Run_of_deps_error (w : World) (o : CreateClusterAWSOptions) (e : GoError)
    (hd : (Run.checkDependencies w).1 = some e) :
    Run w o = ⟨Outcome.exited (-1),
      (Run.checkDependencies w).2 ++
        [Event.logErrorf (e.Error ++ "\nPlease fix the error or install manually then try again"),
         Event.osExit (-1)]⟩ := by
  rcases h : Run.checkDependencies w with ⟨a, t0⟩
  rw [h] at hd
  simp only at hd
  subst hd
  simp only [Run, h]

theorem Run_of_zones_error (w : World) (o : CreateClusterAWSOptions) (e : GoError)
    (hd : (Run.checkDependencies w).1 = none)
    (hz : (Run.resolveZones w o.Flags).1 = .error e) :
    Run w o = ⟨Outcome.returned (some e),
      (Run.checkDependencies w).2 ++ (Run.resolveNodeCount w o.Flags).2 ++
        (Run.resolveZones w o.Flags).2⟩ := by
  rcases h : Run.checkDependencies w with ⟨a, t0⟩
  rcases hn : Run.resolveNodeCount w o.Flags with ⟨n, t1⟩
  rcases hr : Run.resolveZones w o.Flags with ⟨r, t2⟩
  rw [h] at hd
  rw [hr] at hz
  simp only at hd hz
  subst hd hz
  simp only [Run, h, hn, hr]

theorem Run_of_kops_error (w : World) (o : CreateClusterAWSOptions) (z : String) (e : GoError)
    (hd : (Run.checkDependencies w).1 = none)
    (hz : (Run.resolveZones w o.Flags).1 = .ok z)
    (hk : w.runCommand "kops" (Run.buildArgs o.Flags z) = some e) :
    Run w o = ⟨Outcome.returned (some e),
      (Run.checkDependencies w).2 ++ (Run.resolveNodeCount w o.Flags).2 ++
        (Run.resolveZones w o.Flags).2 ++
        [Event.runCommand "kops" (Run.buildArgs o.Flags z)]⟩ := by
  rcases h : Run.checkDependencies w with ⟨a, t0⟩
  rcases hn : Run.resolveNodeCount w o.Flags with ⟨n, t1⟩
  rcases hr : Run.resolveZones w o.Flags with ⟨r, t2⟩
  rw [h] at hd
  rw [hr] at hz
  simp only at hd hz
  subst hd hz
  simp only [Run, h, hn, hr, hk]

theorem Run_of_wait_error (w : World) (o : CreateClusterAWSOptions) (z : String) (e : GoError)
    (hd : (Run.checkDependencies w).1 = none)
    (hz : (Run.resolveZones w o.Flags).1 = .ok z)
    (hk : w.runCommand "kops" (Run.buildArgs o.Flags z) = none)
    (hw : (waitForClusterToComeUp w).1 = some e) :
    Run w o = ⟨Outcome.returned (some (fmt.Errorf
        ("Failed to wait for Kubernetes cluster to start: " ++ e.Error ++ "\n"))),
      (Run.checkDependencies w).2 ++ (Run.resolveNodeCount w o.Flags).2 ++
        (Run.resolveZones w o.Flags).2 ++
        [Event.runCommand "kops" (Run.buildArgs o.Flags z)] ++
        [Event.sleep (30 * time.Second)] ++ (waitForClusterToComeUp w).2⟩ := by
  rcases h : Run.checkDependencies w with ⟨a, t0⟩
  rcases hn : Run.resolveNodeCount w o.Flags with ⟨n, t1⟩
  rcases hr : Run.resolveZones w o.Flags with ⟨r, t2⟩
  rcases hp : waitForClusterToComeUp w with ⟨p, t5⟩
  rw [h] at hd
  rw [hr] at hz
  rw [hp] at hw
  simp only at hd hz hw
  subst hd hz hw
  simp only [Run, h, hn, hr, hk, hp]

theorem Run_of_wait_ok (w : World) (o : CreateClusterAWSOptions) (z : String)
    (hd : (Run.checkDependencies w).1 = none)
    (hz : (Run.resolveZones w o.Flags).1 = .ok z)
    (hk : w.runCommand "kops" (Run.buildArgs o.Flags z) = none)
    (hw : (waitForClusterToComeUp w).1 = none) :
    Run w o = ⟨Outcome.returned (w.initAndInstall ProviderId.AWS),
      (Run.checkDependencies w).2 ++ (Run.resolveNodeCount w o.Flags).2 ++
        (Run.resolveZones w o.Flags).2 ++
        [Event.runCommand "kops" (Run.buildArgs o.Flags z)] ++
        [Event.sleep (30 * time.Second)] ++ (waitForClusterToComeUp w).2 ++
        [Event.initAndInstall ProviderId.AWS]⟩ := by
  rcases h : Run.checkDependencies w with ⟨a, t0⟩
  rcases hn : Run.resolveNodeCount w o.Flags with ⟨n, t1⟩
  rcases hr : Run.resolveZones w o.Flags with ⟨r, t2⟩
  rcases hp : waitForClusterToComeUp w with ⟨p, t5⟩
  rw [h] at hd
  rw [hr] at hz
  rw [hp] at hw
  simp only at hd hz hw
  subst hd hz hw
  simp only [Run, h, hn, hr, hk, hp]

/-! ## What each stage writes to the call log -/

theorem checkDependencies_log (w : World) :
    (Run.checkDependencies w).2 =
      [Event.binaryShouldBeInstalled "kops",
       Event.installMissingDependencies
        (if w.binaryShouldBeInstalled "kops" ≠ "" then [w.binaryShouldBeInstalled "kops"]
          else [])] := by
  simp [Run.checkDependencies]

theorem checkDependencies_result (w : World) :
    (Run.checkDependencies w).1 =
      w.installMissingDependencies
        (if w.binaryShouldBeInstalled "kops" ≠ "" then [w.binaryShouldBeInstalled "kops"]
          else []) := by
  simp [Run.checkDependencies]

theorem resolveNodeCount_log (w : World) (flags : CreateClusterAWSFlags) :
    (Run.resolveNodeCount w flags).2 =
      if flags.NodeCount = "" then [Event.askOne Run.nodesPrompt Validator.none] else [] := by
  unfold Run.resolveNodeCount
  by_cases h : flags.NodeCount = ""
  · simp only [h, if_true]
    cases w.AskOne Run.nodesPrompt Validator.none <;> rfl
  · simp only [h, if_false]

theorem resolveZones_log (w : World) (flags : CreateClusterAWSFlags) :
    (Run.resolveZones w flags).2 =
      if flags.Zones = "" then
        if w.Getenv "AWS_AVAILABILITY_ZONES" = "" then
          [Event.getenv "AWS_AVAILABILITY_ZONES",
           Event.warnf "No AWS_AVAILABILITY_ZONES environment variable is defined or zones option!\n",
           Event.askOne Run.zonesPrompt Validator.Required]
        else [Event.getenv "AWS_AVAILABILITY_ZONES"]
      else [] := by
  unfold Run.resolveZones
  by_cases h : flags.Zones = ""
  · by_cases h2 : w.Getenv "AWS_AVAILABILITY_ZONES" = ""
    · simp only [h, h2, if_true]
      cases hq : w.AskOne Run.zonesPrompt Validator.Required with
      | error err => simp [optionZones]
      | ok a =>
        by_cases h3 : a = ""
        · simp [h3, optionZones]
        · simp [h3, optionZones]
    · simp [h, h2]
  · simp [h]

theorem resolveZones_result (w : World) (flags : CreateClusterAWSFlags) :
    (Run.resolveZones w flags).1 =
      if flags.Zones = "" then
        if w.Getenv "AWS_AVAILABILITY_ZONES" = "" then
          match w.AskOne Run.zonesPrompt Validator.Required with
          | .error err => .error err
          | .ok a => if a = "" then .error (fmt.Errorf "No Availility zones provided!") else .ok a
        else .ok (w.Getenv "AWS_AVAILABILITY_ZONES")
      else .ok flags.Zones := by
  unfold Run.resolveZones
  by_cases h : flags.Zones = ""
  · by_cases h2 : w.Getenv "AWS_AVAILABILITY_ZONES" = ""
    · simp only [h, h2, if_true]
      cases hq : w.AskOne Run.zonesPrompt Validator.Required with
      | error err => simp
      | ok a =>
        by_cases h3 : a = ""
        · simp [h3]
        · simp [h3]
    · simp [h, h2]
  · simp [h]

theorem waitForClusterToComeUp_log (w : World) :
    (waitForClusterToComeUp w).2 =
      [Event.retry 200 (time.Second + 20) ("kubectl", ["get", "node"])] := rfl

theorem waitForClusterToComeUp_result (w : World) :
    (waitForClusterToComeUp w).1 =
      w.retry 200 (time.Second + 20) ("kubectl", ["get", "node"]) := rfl

theorem buildArgs_eq (flags : CreateClusterAWSFlags) (z : String) :
    Run.buildArgs flags z =
      (if flags.NodeCount ≠ "" then ["--node-count", flags.NodeCount] else []) ++
      (if flags.KubeVersion ≠ "" then ["--kubernetes-version", flags.KubeVersion] else []) ++
      ["--authorization", (if flags.UseRBAC then "RBAC" else "AlwaysAllow"),
       "--zones", z, "--yes"] := by
  unfold Run.buildArgs
  cases flags.UseRBAC <;> by_cases h1 : flags.NodeCount = "" <;>
    by_cases h2 : flags.KubeVersion = "" <;> simp [h1, h2]

/-- The five ways an execution of `Run` can end. -/
theorem Run_cases (w : World) (o : CreateClusterAWSOptions) :
    (∃ e, (Run.checkDependencies w).1 = some e ∧
      Run w o = ⟨Outcome.exited (-1),
        (Run.checkDependencies w).2 ++
          [Event.logErrorf
            (e.Error ++ "\nPlease fix the error or install manually then try again"),
           Event.osExit (-1)]⟩) ∨
    ((Run.checkDependencies w).1 = none ∧
      ∃ e, (Run.resolveZones w o.Flags).1 = .error e ∧
      Run w o = ⟨Outcome.returned (some e),
        (Run.checkDependencies w).2 ++ (Run.resolveNodeCount w o.Flags).2 ++
          (Run.resolveZones w o.Flags).2⟩) ∨
    ((Run.checkDependencies w).1 = none ∧
      ∃ z, (Run.resolveZones w o.Flags).1 = .ok z ∧
      ∃ e, w.runCommand "kops" (Run.buildArgs o.Flags z) = some e ∧
      Run w o = ⟨Outcome.returned (some e),
        (Run.checkDependencies w).2 ++ (Run.resolveNodeCount w o.Flags).2 ++
          (Run.resolveZones w o.Flags).2 ++
          [Event.runCommand "kops" (Run.buildArgs o.Flags z)]⟩) ∨
    ((Run.checkDependencies w).1 = none ∧
      ∃ z, (Run.resolveZones w o.Flags).1 = .ok z ∧
      w.runCommand "kops" (Run.buildArgs o.Flags z) = none ∧
      ∃ e, (waitForClusterToComeUp w).1 = some e ∧
      Run w o = ⟨Outcome.returned (some (fmt.Errorf
          ("Failed to wait for Kubernetes cluster to start: " ++ e.Error ++ "\n"))),
        (Run.checkDependencies w).2 ++ (Run.resolveNodeCount w o.Flags).2 ++
          (Run.resolveZones w o.Flags).2 ++
          [Event.runCommand "kops" (Run.buildArgs o.Flags z)] ++
          [Event.sleep (30 * time.Second)] ++ (waitForClusterToComeUp w).2⟩) ∨
    ((Run.checkDependencies w).1 = none ∧
      ∃ z, (Run.resolveZones w o.Flags).1 = .ok z ∧
      w.runCommand "kops" (Run.buildArgs o.Flags z) = none ∧
      (waitForClusterToComeUp w).1 = none ∧
      Run w o = ⟨Outcome.returned (w.initAndInstall ProviderId.AWS),
        (Run.checkDependencies w).2 ++ (Run.resolveNodeCount w o.Flags).2 ++
          (Run.resolveZones w o.Flags).2 ++
          [Event.runCommand "kops" (Run.buildArgs o.Flags z)] ++
          [Event.sleep (30 * time.Second)] ++ (waitForClusterToComeUp w).2 ++
          [Event.initAndInstall ProviderId.AWS]⟩) := by
  cases hd : (Run.checkDependencies w).1 with
  | some e => exact Or.inl ⟨e, rfl, Run_of_deps_error w o e hd⟩
  | none =>
    right
    cases hz : (Run.resolveZones w o.Flags).1 with
    | error e => exact Or.inl ⟨rfl, e, rfl, Run_of_zones_error w o e hd hz⟩
    | ok z =>
      right
      cases hk : w.runCommand "kops" (Run.buildArgs o.Flags z) with
      | some e => exact Or.inl ⟨rfl, z, rfl, e, hk, Run_of_kops_error w o z e hd hz hk⟩
      | none =>
        right
        cases hw : (waitForClusterToComeUp w).1 with
        | some e =>
          exact Or.inl ⟨rfl, z, rfl, hk, e, rfl, Run_of_wait_error w o z e hd hz hk hw⟩
        | none => exact Or.inr ⟨rfl, z, rfl, hk, rfl, Run_of_wait_ok w o z hd hz hk hw⟩

/-- Every logged call of `Run` comes from one of its stages. -/
theorem Run_trace_mem (w : World) (o : CreateClusterAWSOptions) (ev : Event)
    (h : ev ∈ (Run w o).trace) :
    ev ∈ (Run.checkDependencies w).2 ∨ (∃ m, ev = Event.logErrorf m) ∨
    ev = Event.osExit (-1) ∨ ev ∈ (Run.resolveNodeCount w o.Flags).2 ∨
    ev ∈ (Run.resolveZones w o.Flags).2 ∨ (∃ a, ev = Event.runCommand "kops" a) ∨
    ev = Event.sleep (30 * time.Second) ∨ ev ∈ (waitForClusterToComeUp w).2 ∨
    ev = Event.initAndInstall ProviderId.AWS := by
  rcases Run_cases w o with ⟨e, _, hr⟩ | ⟨_, e, _, hr⟩ | ⟨_, z, _, e, _, hr⟩ |
    ⟨_, z, _, _, e, _, hr⟩ | ⟨_, z, _, _, _, hr⟩ <;>
  · rw [hr] at h
    simp only [List.mem_append, List.mem_cons, List.mem_singleton, List.not_mem_nil,
      or_false] at h
    aesop

/-- The stages before provisioning log only lookups, installer calls, prompts,
environment reads and warnings. -/
theorem early_stages_filter (w : World) (flags : CreateClusterAWSFlags) (p : Event → Bool)
    (h1 : ∀ n, p (Event.binaryShouldBeInstalled n) = false)
    (h2 : ∀ d, p (Event.installMissingDependencies d) = false)
    (h3 : ∀ i v, p (Event.askOne i v) = false)
    (h4 : ∀ k, p (Event.getenv k) = false)
    (h5 : ∀ m, p (Event.warnf m) = false) :
    ((Run.checkDependencies w).2 ++ (Run.resolveNodeCount w flags).2 ++
      (Run.resolveZones w flags).2).filter p = [] := by
  rw [checkDependencies_log, resolveNodeCount_log, resolveZones_log]
  split_ifs <;> simp [h1, h2, h3, h4, h5]

/-! ## C1: the argument vector handed to `kops` -/

/-- C1: when the dependency check passes and the zones resolve to `z`, the
subprocess invocations of `Run` are exactly one call of `kops`, whose argument
vector is `--node-count n` if the node-count flag `n` is non-empty, then
`--kubernetes-version v` if the version flag `v` is non-empty, then
`--authorization a --zones z --yes` with `a` being `RBAC` when the RBAC flag is
set and `AlwaysAllow` otherwise; nothing else is appended and no token is
changed. -/
theorem Run_kops_argument_vector (w : World) (o : CreateClusterAWSOptions) (z : String)
    (hd : (Run.checkDependencies w).1 = none)
    (hz : (Run.resolveZones w o.Flags).1 = .ok z) :
    (Run w o).trace.filter Event.isRunCommand =
      [Event.runCommand "kops"
        ((if o.Flags.NodeCount ≠ "" then ["--node-count", o.Flags.NodeCount] else []) ++
         (if o.Flags.KubeVersion ≠ "" then ["--kubernetes-version", o.Flags.KubeVersion]
          else []) ++
         ["--authorization", (if o.Flags.UseRBAC then "RBAC" else "AlwaysAllow"),
          "--zones", z, "--yes"])] := by
  rw [← buildArgs_eq]
  have hlogs := early_stages_filter w o.Flags Event.isRunCommand
    (fun _ => rfl) (fun _ => rfl) (fun _ _ => rfl) (fun _ => rfl) (fun _ => rfl)
  cases hk : w.runCommand "kops" (Run.buildArgs o.Flags z) with
  | some e =>
    rw [Run_of_kops_error w o z e hd hz hk]
    simp only [List.filter_append, hlogs]
    simp [Event.isRunCommand]
  | none =>
    cases hw : (waitForClusterToComeUp w).1 with
    | some e =>
      rw [Run_of_wait_error w o z e hd hz hk hw, waitForClusterToComeUp_log]
      simp only [List.filter_append, hlogs]
      simp [Event.isRunCommand]
    | none =>
      rw [Run_of_wait_ok w o z hd hz hk hw, waitForClusterToComeUp_log]
      simp only [List.filter_append, hlogs]
      simp [Event.isRunCommand]

/-- C1 at the end-to-end scenario of the spec. -/
theorem Run_kops_argument_vector_witness :
    (Run.checkDependencies happyWorld).1 = none ∧
    (Run.resolveZones happyWorld (optionsWith scenarioFlags).Flags).1
      = .ok "us-east-1a,us-east-1b" ∧
    (Run happyWorld (optionsWith scenarioFlags)).trace.filter Event.isRunCommand =
      [Event.runCommand "kops"
        ["--node-count", "3", "--authorization", "RBAC",
         "--zones", "us-east-1a,us-east-1b", "--yes"]] :=
  ⟨rfl, by simp [resolveZones_result, optionsWith, scenarioFlags],
   by simpa [optionsWith, scenarioFlags] using
     Run_kops_argument_vector happyWorld (optionsWith scenarioFlags) "us-east-1a,us-east-1b"
       rfl (by simp [resolveZones_result, optionsWith, scenarioFlags])⟩

/-! ## C2: the priority chain of the availability zones -/

/-- C2: zones resolution stops at the first non-empty source.  With a non-empty
flag the zones are the flag, the environment is never read and the zones prompt
is never shown; with an empty flag and a non-empty environment value the zones
are that value and the zones prompt is never shown; with both empty and a
successful non-empty prompt answer the zones are the answer.  (The only prompt
that may still appear is the node-count prompt.) -/
theorem resolveZones_priority_chain (w : World) (o : CreateClusterAWSOptions) :
    (o.Flags.Zones ≠ "" →
      (Run.resolveZones w o.Flags).1 = .ok o.Flags.Zones ∧
      (∀ ev ∈ (Run w o).trace, ev.isGetenv = false) ∧
      (∀ ev ∈ (Run w o).trace, ev.isPrompt = true →
        ev = Event.askOne Run.nodesPrompt Validator.none)) ∧
    (o.Flags.Zones = "" → w.Getenv "AWS_AVAILABILITY_ZONES" ≠ "" →
      (Run.resolveZones w o.Flags).1 = .ok (w.Getenv "AWS_AVAILABILITY_ZONES") ∧
      (∀ ev ∈ (Run w o).trace, ev.isPrompt = true →
        ev = Event.askOne Run.nodesPrompt Validator.none)) ∧
    (∀ p, o.Flags.Zones = "" → w.Getenv "AWS_AVAILABILITY_ZONES" = "" →
      w.AskOne Run.zonesPrompt Validator.Required = .ok p → p ≠ "" →
      (Run.resolveZones w o.Flags).1 = .ok p) := by
  refine ⟨fun hf => ⟨?_, ?_, ?_⟩, fun hf he => ⟨?_, ?_⟩, fun p hf he hp hne => ?_⟩
  · simp [resolveZones_result, hf]
  · intro ev hev
    have h := Run_trace_mem w o ev hev
    rw [checkDependencies_log, resolveNodeCount_log, resolveZones_log,
      waitForClusterToComeUp_log] at h
    simp only [hf, if_false, List.not_mem_nil, false_or] at h
    rcases h with h | ⟨m, h⟩ | h | h | ⟨a, h⟩ | h | h | h
    · simp only [List.mem_cons, List.mem_singleton, List.not_mem_nil, or_false] at h
      rcases h with h | h <;> subst h <;> rfl
    · subst h; rfl
    · subst h; rfl
    · split_ifs at h
      · simp only [List.mem_singleton] at h; subst h; rfl
      · simp at h
    · subst h; rfl
    · subst h; rfl
    · simp only [List.mem_singleton] at h; subst h; rfl
    · subst h; rfl
  · intro ev hev hpr
    have h := Run_trace_mem w o ev hev
    rw [checkDependencies_log, resolveNodeCount_log, resolveZones_log,
      waitForClusterToComeUp_log] at h
    simp only [hf, if_false, List.not_mem_nil, false_or] at h
    rcases h with h | ⟨m, h⟩ | h | h | ⟨a, h⟩ | h | h | h
    · simp only [List.mem_cons, List.mem_singleton, List.not_mem_nil, or_false] at h
      rcases h with h | h <;> subst h <;> simp [Event.isPrompt] at hpr
    · subst h; simp [Event.isPrompt] at hpr
    · subst h; simp [Event.isPrompt] at hpr
    · split_ifs at h
      · simp only [List.mem_singleton] at h; exact h
      · simp at h
    · subst h; simp [Event.isPrompt] at hpr
    · subst h; simp [Event.isPrompt] at hpr
    · simp only [List.mem_singleton] at h; subst h; simp [Event.isPrompt] at hpr
    · subst h; simp [Event.isPrompt] at hpr
  · simp [resolveZones_result, hf, he]
  · intro ev hev hpr
    have h := Run_trace_mem w o ev hev
    rw [checkDependencies_log, resolveNodeCount_log, resolveZones_log,
      waitForClusterToComeUp_log] at h
    simp only [hf, he, if_true, if_false] at h
    rcases h with h | ⟨m, h⟩ | h | h | h | ⟨a, h⟩ | h | h | h
    · simp only [List.mem_cons, List.mem_singleton, List.not_mem_nil, or_false] at h
      rcases h with h | h <;> subst h <;> simp [Event.isPrompt] at hpr
    · subst h; simp [Event.isPrompt] at hpr
    · subst h; simp [Event.isPrompt] at hpr
    · split_ifs at h
      · simp only [List.mem_singleton] at h; exact h
      · simp at h
    · simp only [List.mem_singleton] at h; subst h; simp [Event.isPrompt] at hpr
    · subst h; simp [Event.isPrompt] at hpr
    · subst h; simp [Event.isPrompt] at hpr
    · simp only [List.mem_singleton] at h; subst h; simp [Event.isPrompt] at hpr
    · subst h; simp [Event.isPrompt] at hpr
  · simp [resolveZones_result, hf, he, hp, hne]

/-- C2 at the three examples of the spec: flag `us-east-1a`, environment
`us-west-2a`, prompt answer `eu-west-1a`. -/
theorem resolveZones_priority_chain_witness :
    ((Run.resolveZones envWorld zoneFlags).1 = .ok "us-east-1a" ∧
      (∀ ev ∈ (Run envWorld (optionsWith zoneFlags)).trace, ev.isGetenv = false)) ∧
    ((Run.resolveZones envWorld defaultFlags).1 = .ok "us-west-2a" ∧
      (∀ ev ∈ (Run envWorld (optionsWith defaultFlags)).trace, ev.isPrompt = true →
        ev = Event.askOne Run.nodesPrompt Validator.none)) ∧
    (Run.resolveZones happyWorld defaultFlags).1 = .ok "eu-west-1a" :=
  ⟨⟨((resolveZones_priority_chain envWorld (optionsWith zoneFlags)).1 (by decide)).1,
     ((resolveZones_priority_chain envWorld (optionsWith zoneFlags)).1 (by decide)).2.1⟩,
   (resolveZones_priority_chain envWorld (optionsWith defaultFlags)).2.1 rfl (by decide),
   (resolveZones_priority_chain happyWorld (optionsWith defaultFlags)).2.2
     "eu-west-1a" rfl rfl rfl (by decide)⟩

/-! ## C3: when parameter resolution fails -/

/-- C3: with the dependency check passed, parameter resolution fails exactly
when the zones flag and the zones environment variable are both empty and the
zones prompt fails or answers the empty string; `Run` then ends before any
subprocess is started.  A prompt failure is returned as the error of the
prompt; an empty answer is returned as the error built at source line 135
(`No Availility zones provided!`).  A failing node-count prompt does not stop
`Run`: once the zones resolve, `kops` is started. -/
theorem Run_resolution_failure (w : World) (o : CreateClusterAWSOptions)
    (hd : (Run.checkDependencies w).1 = none) :
    ((∃ e, (Run.resolveZones w o.Flags).1 = .error e) ↔
      (o.Flags.Zones = "" ∧ w.Getenv "AWS_AVAILABILITY_ZONES" = "" ∧
        ((∃ e, w.AskOne Run.zonesPrompt Validator.Required = .error e) ∨
          w.AskOne Run.zonesPrompt Validator.Required = .ok ""))) ∧
    ((Run w o).trace.filter Event.isRunCommand = [] ↔
      (o.Flags.Zones = "" ∧ w.Getenv "AWS_AVAILABILITY_ZONES" = "" ∧
        ((∃ e, w.AskOne Run.zonesPrompt Validator.Required = .error e) ∨
          w.AskOne Run.zonesPrompt Validator.Required = .ok ""))) ∧
    (∀ e, o.Flags.Zones = "" → w.Getenv "AWS_AVAILABILITY_ZONES" = "" →
      w.AskOne Run.zonesPrompt Validator.Required = .error e →
      (Run w o).outcome = Outcome.returned (some e)) ∧
    (o.Flags.Zones = "" → w.Getenv "AWS_AVAILABILITY_ZONES" = "" →
      w.AskOne Run.zonesPrompt Validator.Required = .ok "" →
      (Run w o).outcome =
        Outcome.returned (some (fmt.Errorf "No Availility zones provided!"))) ∧
    (∀ e z, w.AskOne Run.nodesPrompt Validator.none = .error e →
      (Run.resolveZones w o.Flags).1 = .ok z →
      Event.runCommand "kops" (Run.buildArgs o.Flags z) ∈ (Run w o).trace) := by
  have hseg : (∃ e, (Run.resolveZones w o.Flags).1 = .error e) ↔
      (o.Flags.Zones = "" ∧ w.Getenv "AWS_AVAILABILITY_ZONES" = "" ∧
        ((∃ e, w.AskOne Run.zonesPrompt Validator.Required = .error e) ∨
          w.AskOne Run.zonesPrompt Validator.Required = .ok "")) := by
    rw [resolveZones_result]
    by_cases hf : o.Flags.Zones = ""
    · by_cases he : w.Getenv "AWS_AVAILABILITY_ZONES" = ""
      · cases hp : w.AskOne Run.zonesPrompt Validator.Required with
        | error err => simp [hf, he]
        | ok a =>
          by_cases ha : a = ""
          · simp [hf, he, ha]
          · simp [hf, he, ha]
      · simp [hf, he]
    · simp [hf]
  have hlogs := early_stages_filter w o.Flags Event.isRunCommand
    (fun _ => rfl) (fun _ => rfl) (fun _ _ => rfl) (fun _ => rfl) (fun _ => rfl)
  have hkops : ∀ z, (Run.resolveZones w o.Flags).1 = .ok z →
      Event.runCommand "kops" (Run.buildArgs o.Flags z) ∈ (Run w o).trace := by
    intro z hz
    cases hk : w.runCommand "kops" (Run.buildArgs o.Flags z) with
    | some e => rw [Run_of_kops_error w o z e hd hz hk]; simp
    | none =>
      cases hw : (waitForClusterToComeUp w).1 with
      | some e => rw [Run_of_wait_error w o z e hd hz hk hw]; simp
      | none => rw [Run_of_wait_ok w o z hd hz hk hw]; simp
  refine ⟨hseg, ?_, ?_, ?_, ?_⟩
  · rw [← hseg]
    constructor
    · intro hnil
      cases hz : (Run.resolveZones w o.Flags).1 with
      | error e => exact ⟨e, rfl⟩
      | ok z =>
        have hm := hkops z hz
        have : Event.runCommand "kops" (Run.buildArgs o.Flags z) ∈
            (Run w o).trace.filter Event.isRunCommand := by
          rw [List.mem_filter]; exact ⟨hm, rfl⟩
        rw [hnil] at this
        simp at this
    · rintro ⟨e, hz⟩
      rw [Run_of_zones_error w o e hd hz]
      exact hlogs
  · intro e hf he hp
    have hz : (Run.resolveZones w o.Flags).1 = .error e := by
      simp [resolveZones_result, hf, he, hp]
    rw [Run_of_zones_error w o e hd hz]
  · intro hf he hp
    have hz : (Run.resolveZones w o.Flags).1 =
        .error (fmt.Errorf "No Availility zones provided!") := by
      simp [resolveZones_result, hf, he, hp]
    rw [Run_of_zones_error w o _ hd hz]
  · intro e z _ hz
    exact hkops z hz

/-- C3 at a failing prompt and at an empty answer. -/
theorem Run_resolution_failure_witness :
    (Run.checkDependencies promptFailWorld).1 = none ∧
    (Run promptFailWorld (optionsWith defaultFlags)).outcome
      = Outcome.returned (some ⟨"interrupt"⟩) ∧
    (Run promptFailWorld (optionsWith defaultFlags)).trace.filter Event.isRunCommand = [] ∧
    (Run.checkDependencies emptyAnswerWorld).1 = none ∧
    (Run emptyAnswerWorld (optionsWith defaultFlags)).outcome
      = Outcome.returned (some (fmt.Errorf "No Availility zones provided!")) ∧
    (Run emptyAnswerWorld (optionsWith defaultFlags)).trace.filter Event.isRunCommand = [] :=
  ⟨rfl,
   (Run_resolution_failure promptFailWorld (optionsWith defaultFlags) rfl).2.2.1
     ⟨"interrupt"⟩ rfl rfl rfl,
   (Run_resolution_failure promptFailWorld (optionsWith defaultFlags) rfl).2.1.mpr
     ⟨rfl, rfl, Or.inl ⟨⟨"interrupt"⟩, rfl⟩⟩,
   rfl,
   (Run_resolution_failure emptyAnswerWorld (optionsWith defaultFlags) rfl).2.2.2.1
     rfl rfl rfl,
   (Run_resolution_failure emptyAnswerWorld (optionsWith defaultFlags) rfl).2.1.mpr
     ⟨rfl, rfl, Or.inr rfl⟩⟩

/-! ## C4: the prompted node count never reaches `kops` -/

/-- C4 fails on the code: with an empty node-count flag and the node-count
prompt answering "5", the local variable `nodeCount` becomes "5", yet the
argument vector handed to `kops` is built from the flag and holds no
`--node-count` at all. -/
theorem Run_drops_prompted_node_count :
    zoneFlags.NodeCount = "" ∧
    happyWorld.AskOne Run.nodesPrompt Validator.none = .ok "5" ∧
    (Run.resolveNodeCount happyWorld zoneFlags).1 = "5" ∧
    (Run happyWorld (optionsWith zoneFlags)).trace.filter Event.isRunCommand =
      [Event.runCommand "kops" ["--authorization", "RBAC", "--zones", "us-east-1a", "--yes"]] ∧
    "--node-count" ∉
      ["--authorization", "RBAC", "--zones", "us-east-1a", "--yes"] := by
  refine ⟨rfl, rfl, rfl, ?_, by decide⟩
  rw [Run_of_wait_ok happyWorld (optionsWith zoneFlags) "us-east-1a" rfl
    (by simp [resolveZones_result, optionsWith, zoneFlags]) rfl rfl,
    checkDependencies_log, resolveNodeCount_log, resolveZones_log, waitForClusterToComeUp_log,
    buildArgs_eq]
  simp [optionsWith, zoneFlags, Event.isRunCommand]

/-! ## C5: the handoff to the platform installer -/

/-- C5: when the dependency check, zones resolution, the `kops` invocation and
readiness polling all succeed, `Run` calls the platform installer exactly once,
with the provider identifier `AWS`, and returns its result unchanged. -/
theorem Run_success_handoff (w : World) (o : CreateClusterAWSOptions) (z : String)
    (hd : (Run.checkDependencies w).1 = none)
    (hz : (Run.resolveZones w o.Flags).1 = .ok z)
    (hk : w.runCommand "kops" (Run.buildArgs o.Flags z) = none)
    (hw : (waitForClusterToComeUp w).1 = none) :
    (Run w o).trace.filter Event.isInitAndInstall = [Event.initAndInstall ProviderId.AWS] ∧
    (Run w o).outcome = Outcome.returned (w.initAndInstall ProviderId.AWS) := by
  have hlogs := early_stages_filter w o.Flags Event.isInitAndInstall
    (fun _ => rfl) (fun _ => rfl) (fun _ _ => rfl) (fun _ => rfl) (fun _ => rfl)
  rw [Run_of_wait_ok w o z hd hz hk hw, waitForClusterToComeUp_log]
  refine ⟨?_, rfl⟩
  simp only [List.filter_append, hlogs]
  simp [Event.isInitAndInstall]

/-- C5 at the end-to-end scenario of the spec. -/
theorem Run_success_handoff_witness :
    (Run.checkDependencies happyWorld).1 = none ∧
    (Run.resolveZones happyWorld (optionsWith scenarioFlags).Flags).1
      = .ok "us-east-1a,us-east-1b" ∧
    happyWorld.runCommand "kops"
      (Run.buildArgs (optionsWith scenarioFlags).Flags "us-east-1a,us-east-1b") = none ∧
    (waitForClusterToComeUp happyWorld).1 = none ∧
    (Run happyWorld (optionsWith scenarioFlags)).trace.filter Event.isInitAndInstall
      = [Event.initAndInstall ProviderId.AWS] ∧
    (Run happyWorld (optionsWith scenarioFlags)).outcome = Outcome.returned none :=
  ⟨rfl, by simp [resolveZones_result, optionsWith, scenarioFlags], rfl, rfl,
   Run_success_handoff happyWorld (optionsWith scenarioFlags) "us-east-1a,us-east-1b" rfl
     (by simp [resolveZones_result, optionsWith, scenarioFlags]) rfl rfl⟩

/-! ## C6: which errors come back unchanged -/

/-- C6 fails on the code: when readiness polling gives up with the error
`timeout`, `Run` returns a different error, whose text is
`Failed to wait for Kubernetes cluster to start: timeout` and a newline. -/
theorem Run_readiness_error_rewritten :
    (waitForClusterToComeUp pollFailWorld).1 = some ⟨"timeout"⟩ ∧
    (Run pollFailWorld (optionsWith scenarioFlags)).outcome =
      Outcome.returned
        (some ⟨"Failed to wait for Kubernetes cluster to start: timeout\n"⟩) ∧
    (Run pollFailWorld (optionsWith scenarioFlags)).outcome ≠
      Outcome.returned (some ⟨"timeout"⟩) := by
  have h : (Run pollFailWorld (optionsWith scenarioFlags)).outcome =
      Outcome.returned
        (some ⟨"Failed to wait for Kubernetes cluster to start: timeout\n"⟩) := by
    rw [Run_of_wait_error pollFailWorld (optionsWith scenarioFlags) "us-east-1a,us-east-1b"
      ⟨"timeout"⟩ rfl (by simp [resolveZones_result, optionsWith, scenarioFlags]) rfl rfl]
    rfl
  refine ⟨rfl, h, ?_⟩
  rw [h]
  decide

/-- C6 as amended: an error of the zones prompt, of the `kops` invocation or of
the platform installer is returned by `Run` unchanged; an error `e` of readiness
polling is returned as a new error whose text is
`Failed to wait for Kubernetes cluster to start: `, the text of `e`, and a
newline. -/
theorem Run_stage_errors (w : World) (o : CreateClusterAWSOptions) (e : GoError)
    (hd : (Run.checkDependencies w).1 = none) :
    (o.Flags.Zones = "" → w.Getenv "AWS_AVAILABILITY_ZONES" = "" →
      w.AskOne Run.zonesPrompt Validator.Required = .error e →
      (Run w o).outcome = Outcome.returned (some e)) ∧
    (∀ z, (Run.resolveZones w o.Flags).1 = .ok z →
      w.runCommand "kops" (Run.buildArgs o.Flags z) = some e →
      (Run w o).outcome = Outcome.returned (some e)) ∧
    (∀ z, (Run.resolveZones w o.Flags).1 = .ok z →
      w.runCommand "kops" (Run.buildArgs o.Flags z) = none →
      (waitForClusterToComeUp w).1 = some e →
      (Run w o).outcome = Outcome.returned (some (fmt.Errorf
        ("Failed to wait for Kubernetes cluster to start: " ++ e.Error ++ "\n")))) ∧
    (∀ z, (Run.resolveZones w o.Flags).1 = .ok z →
      w.runCommand "kops" (Run.buildArgs o.Flags z) = none →
      (waitForClusterToComeUp w).1 = none →
      w.initAndInstall ProviderId.AWS = some e →
      (Run w o).outcome = Outcome.returned (some e)) := by
  refine ⟨fun hf he hp => ?_, fun z hz hk => ?_, fun z hz hk hw => ?_,
    fun z hz hk hw hi => ?_⟩
  · have hz : (Run.resolveZones w o.Flags).1 = .error e := by
      simp [resolveZones_result, hf, he, hp]
    rw [Run_of_zones_error w o e hd hz]
  · rw [Run_of_kops_error w o z e hd hz hk]
  · rw [Run_of_wait_error w o z e hd hz hk hw]
  · rw [Run_of_wait_ok w o z hd hz hk hw, hi]

/-- C6 as amended, at one failure of each stage. -/
theorem Run_stage_errors_witness :
    (Run promptFailWorld (optionsWith defaultFlags)).outcome
      = Outcome.returned (some ⟨"interrupt"⟩) ∧
    (Run kopsFailWorld (optionsWith scenarioFlags)).outcome
      = Outcome.returned (some ⟨"exit status 1"⟩) ∧
    (Run pollFailWorld (optionsWith scenarioFlags)).outcome
      = Outcome.returned (some (fmt.Errorf
          ("Failed to wait for Kubernetes cluster to start: " ++ "timeout" ++ "\n"))) ∧
    (Run handoffFailWorld (optionsWith scenarioFlags)).outcome
      = Outcome.returned (some ⟨"helm failed"⟩) :=
  ⟨(Run_stage_errors promptFailWorld (optionsWith defaultFlags) ⟨"interrupt"⟩ rfl).1
     rfl rfl rfl,
   (Run_stage_errors kopsFailWorld (optionsWith scenarioFlags) ⟨"exit status 1"⟩ rfl).2.1
     "us-east-1a,us-east-1b" (by simp [resolveZones_result, optionsWith, scenarioFlags]) rfl,
   (Run_stage_errors pollFailWorld (optionsWith scenarioFlags) ⟨"timeout"⟩ rfl).2.2.1
     "us-east-1a,us-east-1b" (by simp [resolveZones_result, optionsWith, scenarioFlags])
     rfl rfl,
   (Run_stage_errors handoffFailWorld (optionsWith scenarioFlags) ⟨"helm failed"⟩ rfl).2.2.2
     "us-east-1a,us-east-1b" (by simp [resolveZones_result, optionsWith, scenarioFlags])
     rfl rfl rfl⟩

/-! ## C7: a failing stage stops the pipeline -/

/-- C7: once a stage fails, no capability of a later stage is called.  A
failing installer means no prompt, no environment lookup, no subprocess, no
delay, no polling and no handoff; a failing zones resolution means no
subprocess, delay, polling or handoff; a failing `kops` invocation means no
delay, polling or handoff; failing readiness polling means no handoff. -/
theorem Run_short_circuit (w : World) (o : CreateClusterAWSOptions) :
    (∀ e, (Run.checkDependencies w).1 = some e →
      ∀ ev ∈ (Run w o).trace, ev.isPrompt = false ∧ ev.isGetenv = false ∧
        ev.isRunCommand = false ∧ ev.isSleep = false ∧ ev.isRetry = false ∧
        ev.isInitAndInstall = false) ∧
    (∀ e, (Run.resolveZones w o.Flags).1 = .error e →
      ∀ ev ∈ (Run w o).trace, ev.isRunCommand = false ∧ ev.isSleep = false ∧
        ev.isRetry = false ∧ ev.isInitAndInstall = false) ∧
    (∀ args e, Event.runCommand "kops" args ∈ (Run w o).trace →
      w.runCommand "kops" args = some e →
      ∀ ev ∈ (Run w o).trace, ev.isSleep = false ∧ ev.isRetry = false ∧
        ev.isInitAndInstall = false) ∧
    (∀ e, (∃ ev ∈ (Run w o).trace, ev.isRetry = true) →
      (waitForClusterToComeUp w).1 = some e →
      ∀ ev ∈ (Run w o).trace, ev.isInitAndInstall = false) := by
  have early : ∀ ev ∈ (Run.checkDependencies w).2 ++ (Run.resolveNodeCount w o.Flags).2 ++
      (Run.resolveZones w o.Flags).2,
      ev.isRunCommand = false ∧ ev.isSleep = false ∧ ev.isRetry = false ∧
        ev.isInitAndInstall = false := by
    intro ev hev
    have h1 := early_stages_filter w o.Flags Event.isRunCommand
      (fun _ => rfl) (fun _ => rfl) (fun _ _ => rfl) (fun _ => rfl) (fun _ => rfl)
    have h2 := early_stages_filter w o.Flags Event.isSleep
      (fun _ => rfl) (fun _ => rfl) (fun _ _ => rfl) (fun _ => rfl) (fun _ => rfl)
    have h3 := early_stages_filter w o.Flags Event.isRetry
      (fun _ => rfl) (fun _ => rfl) (fun _ _ => rfl) (fun _ => rfl) (fun _ => rfl)
    have h4 := early_stages_filter w o.Flags Event.isInitAndInstall
      (fun _ => rfl) (fun _ => rfl) (fun _ _ => rfl) (fun _ => rfl) (fun _ => rfl)
    rw [List.filter_eq_nil_iff] at h1 h2 h3 h4
    exact ⟨by simpa using h1 ev hev, by simpa using h2 ev hev, by simpa using h3 ev hev,
      by simpa using h4 ev hev⟩
  have depsOnly : ∀ e, (Run.checkDependencies w).1 = some e →
      ∀ ev ∈ (Run w o).trace, ev.isPrompt = false ∧ ev.isGetenv = false ∧
        ev.isRunCommand = false ∧ ev.isSleep = false ∧ ev.isRetry = false ∧
        ev.isInitAndInstall = false := by
    intro e hd ev hev
    rw [Run_of_deps_error w o e hd, checkDependencies_log] at hev
    simp only [List.mem_append, List.mem_cons, List.mem_singleton, List.not_mem_nil,
      or_false] at hev
    rcases hev with (h | h) | h | h <;> subst h <;> simp [Event.isPrompt, Event.isGetenv,
      Event.isRunCommand, Event.isSleep, Event.isRetry, Event.isInitAndInstall]
  refine ⟨depsOnly, ?_, ?_, ?_⟩
  · intro e hz ev hev
    cases hd : (Run.checkDependencies w).1 with
    | some e0 =>
      have h := depsOnly e0 hd ev hev
      exact ⟨h.2.2.1, h.2.2.2.1, h.2.2.2.2.1, h.2.2.2.2.2⟩
    | none =>
      rw [Run_of_zones_error w o e hd hz] at hev
      exact early ev hev
  · intro args e hmem hk ev hev
    rcases Run_cases w o with ⟨e0, hd, hr⟩ | ⟨hd, e0, hz, hr⟩ | ⟨hd, z, hz, e0, hk0, hr⟩ |
      ⟨hd, z, hz, hk0, e0, hw, hr⟩ | ⟨hd, z, hz, hk0, hw, hr⟩
    · have h := depsOnly e0 hd ev hev
      exact ⟨h.2.2.2.1, h.2.2.2.2.1, h.2.2.2.2.2⟩
    · rw [hr] at hev
      have h := early ev hev
      exact ⟨h.2.1, h.2.2.1, h.2.2.2⟩
    · rw [hr] at hev
      simp only [List.mem_append, List.mem_singleton] at hev
      rcases hev with hev | hev
      · have h := early ev (by simpa only [List.mem_append] using hev)
        exact ⟨h.2.1, h.2.2.1, h.2.2.2⟩
      · subst hev
        simp [Event.isSleep, Event.isRetry, Event.isInitAndInstall]
    · exfalso
      rw [hr, waitForClusterToComeUp_log] at hmem
      simp only [List.mem_append, List.mem_singleton, List.mem_cons, List.not_mem_nil,
        or_false] at hmem
      rcases hmem with (((hmem | hmem) | hmem) | hmem)
      · have h := early _ (by simpa only [List.mem_append] using hmem)
        simp [Event.isRunCommand] at h
      · simp only [Event.runCommand.injEq, true_and] at hmem
        rw [hmem, hk0] at hk
        simp at hk
      · simp at hmem
      · simp at hmem
    · exfalso
      rw [hr, waitForClusterToComeUp_log] at hmem
      simp only [List.mem_append, List.mem_singleton, List.mem_cons, List.not_mem_nil,
        or_false] at hmem
      rcases hmem with ((((hmem | hmem) | hmem) | hmem) | hmem)
      · have h := early _ (by simpa only [List.mem_append] using hmem)
        simp [Event.isRunCommand] at h
      · simp only [Event.runCommand.injEq, true_and] at hmem
        rw [hmem, hk0] at hk
        simp at hk
      · simp at hmem
      · simp at hmem
      · simp at hmem
  · intro e hex hw ev hev
    rcases Run_cases w o with ⟨e0, hd, hr⟩ | ⟨hd, e0, hz, hr⟩ | ⟨hd, z, hz, e0, hk0, hr⟩ |
      ⟨hd, z, hz, hk0, e0, hw0, hr⟩ | ⟨hd, z, hz, hk0, hw0, hr⟩
    · exact (depsOnly e0 hd ev hev).2.2.2.2.2
    · rw [hr] at hev
      exact (early ev hev).2.2.2
    · rw [hr] at hev
      simp only [List.mem_append, List.mem_singleton] at hev
      rcases hev with hev | hev
      · exact (early ev (by simpa only [List.mem_append] using hev)).2.2.2
      · subst hev; rfl
    · rw [hr, waitForClusterToComeUp_log] at hev
      simp only [List.mem_append, List.mem_singleton, List.mem_cons, List.not_mem_nil,
        or_false] at hev
      rcases hev with (((hev | hev) | hev) | hev)
      · exact (early ev (by simpa only [List.mem_append] using hev)).2.2.2
      · subst hev; rfl
      · subst hev; rfl
      · subst hev; rfl
    · rw [hw0] at hw
      simp at hw

/-- C7 at one failure of each stage. -/
theorem Run_short_circuit_witness :
    ((Run.checkDependencies depsFailWorld).1 = some ⟨"download failed"⟩ ∧
      ∀ ev ∈ (Run depsFailWorld (optionsWith scenarioFlags)).trace,
        ev.isPrompt = false ∧ ev.isGetenv = false ∧ ev.isRunCommand = false ∧
        ev.isSleep = false ∧ ev.isRetry = false ∧ ev.isInitAndInstall = false) ∧
    ((Run.resolveZones promptFailWorld (optionsWith defaultFlags).Flags).1
        = .error ⟨"interrupt"⟩ ∧
      ∀ ev ∈ (Run promptFailWorld (optionsWith defaultFlags)).trace,
        ev.isRunCommand = false ∧ ev.isSleep = false ∧ ev.isRetry = false ∧
        ev.isInitAndInstall = false) ∧
    (Event.runCommand "kops"
        ["--node-count", "3", "--authorization", "RBAC",
         "--zones", "us-east-1a,us-east-1b", "--yes"]
        ∈ (Run kopsFailWorld (optionsWith scenarioFlags)).trace ∧
      ∀ ev ∈ (Run kopsFailWorld (optionsWith scenarioFlags)).trace,
        ev.isSleep = false ∧ ev.isRetry = false ∧ ev.isInitAndInstall = false) ∧
    ((∃ ev ∈ (Run pollFailWorld (optionsWith scenarioFlags)).trace, ev.isRetry = true) ∧
      ∀ ev ∈ (Run pollFailWorld (optionsWith scenarioFlags)).trace,
        ev.isInitAndInstall = false) := by
  have hk : Event.runCommand "kops"
      ["--node-count", "3", "--authorization", "RBAC",
       "--zones", "us-east-1a,us-east-1b", "--yes"]
      ∈ (Run kopsFailWorld (optionsWith scenarioFlags)).trace := by
    rw [Run_of_kops_error kopsFailWorld (optionsWith scenarioFlags) "us-east-1a,us-east-1b"
      ⟨"exit status 1"⟩ rfl (by simp [resolveZones_result, optionsWith, scenarioFlags]) rfl]
    simp [buildArgs_eq, optionsWith, scenarioFlags]
  have hp : ∃ ev ∈ (Run pollFailWorld (optionsWith scenarioFlags)).trace,
      ev.isRetry = true := by
    rw [Run_of_wait_error pollFailWorld (optionsWith scenarioFlags) "us-east-1a,us-east-1b"
      ⟨"timeout"⟩ rfl (by simp [resolveZones_result, optionsWith, scenarioFlags]) rfl rfl]
    exact ⟨Event.retry 200 (time.Second + 20) ("kubectl", ["get", "node"]),
      by simp [waitForClusterToComeUp_log], rfl⟩
  exact
    ⟨⟨rfl, (Run_short_circuit depsFailWorld (optionsWith scenarioFlags)).1
        ⟨"download failed"⟩ rfl⟩,
     ⟨by simp [resolveZones_result, optionsWith, defaultFlags, promptFailWorld, sampleWorld,
          Run.zonesPrompt],
      (Run_short_circuit promptFailWorld (optionsWith defaultFlags)).2.1 ⟨"interrupt"⟩
        (by simp [resolveZones_result, optionsWith, defaultFlags, promptFailWorld,
          sampleWorld, Run.zonesPrompt])⟩,
     ⟨hk, (Run_short_circuit kopsFailWorld (optionsWith scenarioFlags)).2.2.1 _
        ⟨"exit status 1"⟩ hk rfl⟩,
     ⟨hp, (Run_short_circuit pollFailWorld (optionsWith scenarioFlags)).2.2.2
        ⟨"timeout"⟩ hp rfl⟩⟩

/-! ## C8: the installer call when nothing is missing -/

/-- C8 fails on the code: with `kops` present (the lookup answers the empty
string) the call log of `Run` still holds a call of the installer. -/
theorem Run_calls_installer_when_present :
    happyWorld.binaryShouldBeInstalled "kops" = "" ∧
    Event.installMissingDependencies [] ∈ (Run happyWorld (optionsWith scenarioFlags)).trace ∧
    ¬ (∀ ev ∈ (Run happyWorld (optionsWith scenarioFlags)).trace, ev.isInstall = false) := by
  have hm : Event.installMissingDependencies [] ∈
      (Run happyWorld (optionsWith scenarioFlags)).trace := by
    rw [Run_of_wait_ok happyWorld (optionsWith scenarioFlags) "us-east-1a,us-east-1b" rfl
      (by simp [resolveZones_result, optionsWith, scenarioFlags]) rfl rfl,
      checkDependencies_log]
    simp [happyWorld]
  refine ⟨rfl, hm, fun h => ?_⟩
  have := h _ hm
  simp [Event.isInstall] at this

/-- C8 as amended: when the lookup reports `kops` present, `Run` calls the
installer exactly once and hands it an empty list, so no tool is named for
installation. -/
theorem Run_installer_gets_empty_list (w : World) (o : CreateClusterAWSOptions)
    (hp : w.binaryShouldBeInstalled "kops" = "") :
    (Run w o).trace.filter Event.isInstall = [Event.installMissingDependencies []] := by
  have hrest : ((Run.resolveNodeCount w o.Flags).2 ++
      (Run.resolveZones w o.Flags).2).filter Event.isInstall = [] := by
    rw [resolveNodeCount_log, resolveZones_log]
    split_ifs <;> simp [Event.isInstall]
  have hdeps : (Run.checkDependencies w).2.filter Event.isInstall =
      [Event.installMissingDependencies []] := by
    rw [checkDependencies_log]
    simp [hp, Event.isInstall]
  rw [List.filter_append] at hrest
  rcases Run_cases w o with ⟨e0, hd, hr⟩ | ⟨hd, e0, hz, hr⟩ | ⟨hd, z, hz, e0, hk0, hr⟩ |
    ⟨hd, z, hz, hk0, e0, hw0, hr⟩ | ⟨hd, z, hz, hk0, hw0, hr⟩ <;>
  · rw [hr]
    simp only [List.filter_append, hdeps, waitForClusterToComeUp_log, List.append_assoc]
    simp [Event.isInstall, hrest]

/-- C8 as amended, at the end-to-end scenario of the spec. -/
theorem Run_installer_gets_empty_list_witness :
    happyWorld.binaryShouldBeInstalled "kops" = "" ∧
    (Run happyWorld (optionsWith scenarioFlags)).trace.filter Event.isInstall
      = [Event.installMissingDependencies []] :=
  ⟨rfl, Run_installer_gets_empty_list happyWorld (optionsWith scenarioFlags) rfl⟩

/-! ## C9: the retry policy of the readiness poller -/

/-- C9 fails on the code: the poller is called with 200 attempts and an
interval of 1 000 000 020 ns, which is below 1.01 s and so not about 1.33 s;
attempts times interval is 200 000 004 000 ns, which is below 201 s and so not
about 266 s (it is not even within 26 s of it). -/
theorem waitForClusterToComeUp_wait_is_not_266 :
    (waitForClusterToComeUp happyWorld).2.map Event.pollAttempts = [200] ∧
    (waitForClusterToComeUp happyWorld).2.map Event.pollInterval = [1000000020] ∧
    (waitForClusterToComeUp happyWorld).2.map Event.worstCaseWait = [200000004000] ∧
    100 * 1000000020 < 101 * time.Second ∧
    ¬ (130 * time.Second ≤ 100 * 1000000020) ∧
    200000004000 < 201 * time.Second ∧
    ¬ (240 * time.Second ≤ 200000004000) := by
  refine ⟨rfl, rfl, rfl, ?_, ?_, ?_, ?_⟩ <;> simp [time.Second]

/-- C9 as amended: the poller is called once, with 200 attempts, the command
`kubectl get node` and the constant interval `time.Second + 20`, that is
1 000 000 020 ns (one second and twenty nanoseconds); attempts times interval
is 200 000 004 000 ns, between 200 s and 201 s. -/
theorem waitForClusterToComeUp_policy (w : World) :
    (waitForClusterToComeUp w).2 =
      [Event.retry 200 (time.Second + 20) ("kubectl", ["get", "node"])] ∧
    time.Second + 20 = 1000000020 ∧
    (waitForClusterToComeUp w).2.map Event.worstCaseWait = [200000004000] ∧
    200 * time.Second ≤ 200000004000 ∧
    200000004000 < 201 * time.Second := by
  refine ⟨rfl, rfl, rfl, ?_, ?_⟩ <;> simp [time.Second]

/-! ## C10: the provider identifier of the command and of the handoff -/

/-- C10 fails on the code: `NewCmdCreateClusterAWS` builds the cluster options
with the provider identifier `AKS`, while `Run` on these very options hands
`AWS` to the platform installer; the two identifiers differ. -/
theorem NewCmdCreateClusterAWS_provider_mismatch :
    NewCmdCreateClusterAWS.Provider = ProviderId.AKS ∧
    (Run happyWorld NewCmdCreateClusterAWS).trace.filter Event.isInitAndInstall
      = [Event.initAndInstall ProviderId.AWS] ∧
    NewCmdCreateClusterAWS.Provider ≠ ProviderId.AWS := by
  refine ⟨rfl, ?_, by decide⟩
  have hlogs := early_stages_filter happyWorld NewCmdCreateClusterAWS.Flags
    Event.isInitAndInstall
    (fun _ => rfl) (fun _ => rfl) (fun _ _ => rfl) (fun _ => rfl) (fun _ => rfl)
  rw [Run_of_wait_ok happyWorld NewCmdCreateClusterAWS "eu-west-1a" rfl
    (by simp [resolveZones_result, NewCmdCreateClusterAWS, happyWorld, Run.zonesPrompt])
    rfl rfl, waitForClusterToComeUp_log]
  simp only [List.filter_append, hlogs]
  simp [Event.isInitAndInstall]

end CreateClusterAWS
